import Mathlib

/-!
Shallow embedding of src/qb_pressure_analysis.py (class NFLPressureAnalysis).

The script draws random arrays with numpy and assembles a pandas DataFrame of
simulated plays.  Randomness is modelled abstractly: every random draw the
script makes is an explicit input of the embedded functions, constrained by a
validity predicate that records the support of the distribution it came from
(gamma draws are nonnegative, uniform(a, b) draws lie in [a, b), binomial(1, p)
draws lie in \x7b0, 1\x7d, choice draws lie in the listed set).  Note that the
binomial calls on source lines 116, 127 and 128 pass a scalar p and no size, so
numpy returns a single scalar that numpy.where broadcasts to every row; those
three draws are therefore modelled as table-wide shared values, while the
per-row draws live in a per-play record.

Rationals stand in for floats; the pandas round(d) calls on lines 132-135 are
modelled as rational rounding to d decimal places.
-/

namespace QBPressure

/-- Defensive alignment labels, listed in the lexicographic order of the
underlying strings (the order pandas groupby uses for observed string keys):
3-4 Base, 4-3 Base, Blitz, Dime, Nickel. -/
inductive Alignment where
  | base34
  | base43
  | blitz
  | dime
  | nickel
deriving DecidableEq, Repr

/-- numpy.clip with scalar bounds: first the lower bound, then the upper. -/
def clip (x lo hi : ℚ) : ℚ := min (max x lo) hi

/-- Rounding to d decimal places, modelling pandas Series.round(d) over ℚ
(ties are resolved by Mathlib round, half away from zero upward; the claims
never hinge on tie behaviour). -/
def roundTo (d : ℕ) (x : ℚ) : ℚ := (round (x * 10 ^ d) : ℤ) / 10 ^ d

/-- The per-play random draws consumed by create_realistic_nfl_data
(source lines 46-78 for the input columns, 84-121 for the outcome draws). -/
structure RawDraws where
  /-- numpy.random.gamma(2, 1.25) draw, line 50 -/
  time_to_throw : ℚ
  /-- numpy.random.choice([0, 1], p=[0.65, 0.35]) draw, line 53 -/
  pressure_applied : ℕ
  /-- numpy.random.gamma(1.5, 1.5) draw, line 54 -/
  time_to_pressure : ℚ
  /-- numpy.random.choice([1, 2, 3, 4]) draw, line 57 -/
  down : ℕ
  /-- numpy.random.gamma(2, 5) draw, line 58 -/
  distance : ℚ
  /-- numpy.random.uniform(5, 95) draw, line 61 -/
  field_position : ℚ
  /-- numpy.random.normal(0, 10) draw, line 64 -/
  score_diff : ℚ
  /-- numpy.random.choice([1, 2, 3, 4]) draw, line 67 -/
  quarter : ℕ
  /-- numpy.random.choice over the five alignment strings, lines 70-74 -/
  def_alignment : Alignment
  /-- numpy.random.choice([3, 4, 5, 6]) draw, line 77 -/
  rushers : ℕ
  /-- numpy.random.binomial(1, clip(...)) vector draw of the pressure branch,
  lines 89-92 (the whole vector is drawn before numpy.where selects) -/
  comp_draw_pressure : ℕ
  /-- numpy.random.binomial(1, clip(...)) vector draw of the no-pressure
  branch, lines 94-97 -/
  comp_draw_no_pressure : ℕ
  /-- numpy.random.gamma(2, 3) draw, line 104 -/
  yards_base : ℚ
  /-- numpy.random.gamma(1, 2) draw, line 105 -/
  yards_bonus : ℚ
  /-- numpy.random.uniform(0, 3) draw, line 106 -/
  yards_penalty : ℚ
  /-- numpy.random.uniform(3, 8) draw assigned to this row when it is a sack,
  line 121 -/
  sack_yards : ℚ
deriving DecidableEq, Repr

/-- The three scalar binomial draws that numpy.where broadcasts to every row. -/
structure SharedDraws where
  /-- numpy.random.binomial(1, 0.4) scalar, line 116 -/
  sack_draw : ℕ
  /-- numpy.random.binomial(1, 0.03) scalar, line 127 -/
  int_draw_pressured : ℕ
  /-- numpy.random.binomial(1, 0.01) scalar, line 128 -/
  int_draw_other : ℕ
deriving DecidableEq, Repr

/-- Support of the distributions behind the per-play draws. -/
def ValidDraws (d : RawDraws) : Prop :=
  0 < d.time_to_throw ∧
  d.pressure_applied ≤ 1 ∧
  0 < d.time_to_pressure ∧
  (1 ≤ d.down ∧ d.down ≤ 4) ∧
  0 < d.distance ∧
  (5 ≤ d.field_position ∧ d.field_position < 95) ∧
  (1 ≤ d.quarter ∧ d.quarter ≤ 4) ∧
  (3 ≤ d.rushers ∧ d.rushers ≤ 6) ∧
  d.comp_draw_pressure ≤ 1 ∧
  d.comp_draw_no_pressure ≤ 1 ∧
  0 ≤ d.yards_base ∧
  0 ≤ d.yards_bonus ∧
  (0 ≤ d.yards_penalty ∧ d.yards_penalty < 3) ∧
  (3 ≤ d.sack_yards ∧ d.sack_yards < 8)

instance (d : RawDraws) : Decidable (ValidDraws d) := by
  unfold ValidDraws; infer_instance

/-- Support of the three shared binomial scalars. -/
def ValidShared (sh : SharedDraws) : Prop :=
  sh.sack_draw ≤ 1 ∧ sh.int_draw_pressured ≤ 1 ∧ sh.int_draw_other ≤ 1

instance (sh : SharedDraws) : Decidable (ValidShared sh) := by
  unfold ValidShared; infer_instance

/-- base_completion = 0.65, line 85. -/
def base_completion : ℚ := 65 / 100

/-- The Bernoulli parameter of the completion draw for a play with the given
pressure flag and (unrounded) time to throw, lines 86-98: with pressure the
rate is base - 0.15 - 0.10 * [time_to_throw < 2.0], without pressure it is
base + 0.05 * [time_to_throw > 2.5], both clipped to [0.3, 0.9]. -/
def completionProb (pa : ℕ) (ttt : ℚ) : ℚ :=
  if pa = 1 then
    clip (base_completion - 15 / 100 - (if ttt < 2 then (1 : ℚ) else 0) * (10 / 100))
      (3 / 10) (9 / 10)
  else
    clip (base_completion + (if ttt > 5 / 2 then (1 : ℚ) else 0) * (5 / 100))
      (3 / 10) (9 / 10)

/-- completion before the sack adjustment: numpy.where on line 86 selects the
pressure-branch draw when pressure_applied == 1, else the other branch draw. -/
def completion0 (d : RawDraws) : ℕ :=
  if d.pressure_applied = 1 then d.comp_draw_pressure else d.comp_draw_no_pressure

/-- yards_gained before the sack adjustment and before rounding, lines
101-109: gamma base plus bonus when time_to_throw > 2.5 minus a uniform
penalty when pressure was applied, for completed passes; 0 otherwise. -/
def yards0 (d : RawDraws) : ℚ :=
  if completion0 d = 1 then
    d.yards_base
      + (if d.time_to_throw > 5 / 2 then (1 : ℚ) else 0) * d.yards_bonus
      - (if d.pressure_applied = 1 then (1 : ℚ) else 0) * d.yards_penalty
  else 0

/-- The sack condition of lines 113-115 (on the unrounded draws). -/
def sackCond (d : RawDraws) : Prop :=
  d.pressure_applied = 1 ∧ d.time_to_pressure < 2 ∧ d.time_to_throw > d.time_to_pressure

instance (d : RawDraws) : Decidable (sackCond d) := by
  unfold sackCond; infer_instance

/-- sack column, lines 112-118: the shared scalar draw where the condition
holds, 0 elsewhere. -/
def sackVal (sh : SharedDraws) (d : RawDraws) : ℕ :=
  if sackCond d then sh.sack_draw else 0

/-- completion after the sack adjustment of line 122. -/
def completionVal (sh : SharedDraws) (d : RawDraws) : ℕ :=
  if sackVal sh d = 1 then 0 else completion0 d

/-- yards_gained after the sack adjustment of line 121, before rounding. -/
def yardsRaw (sh : SharedDraws) (d : RawDraws) : ℚ :=
  if sackVal sh d = 1 then -d.sack_yards else yards0 d

/-- interception column, lines 125-129: the 0.03-scalar on pressured
incomplete non-sack rows, the 0.01-scalar elsewhere. -/
def interceptionVal (sh : SharedDraws) (d : RawDraws) : ℕ :=
  if d.pressure_applied = 1 ∧ completionVal sh d = 0 ∧ sackVal sh d = 0 then
    sh.int_draw_pressured
  else sh.int_draw_other

/-- One record of the generated DataFrame. -/
structure Play where
  play_id : ℕ
  time_to_throw : ℚ
  pressure_applied : ℕ
  time_to_pressure : ℚ
  down : ℕ
  distance : ℚ
  field_position : ℚ
  score_diff : ℚ
  quarter : ℕ
  def_alignment : Alignment
  rushers : ℕ
  completion : ℕ
  yards_gained : ℚ
  sack : ℕ
  interception : ℕ
deriving DecidableEq, Repr

/-- Row i (0-based) of the generated frame: play_id = i + 1 (line 47) and the
rounding of lines 132-135 applied to distance, the two times and the yards. -/
def mkPlay (sh : SharedDraws) (i : ℕ) (d : RawDraws) : Play where
  play_id := i + 1
  time_to_throw := roundTo 2 d.time_to_throw
  pressure_applied := d.pressure_applied
  time_to_pressure := roundTo 2 d.time_to_pressure
  down := d.down
  distance := roundTo 1 d.distance
  field_position := d.field_position
  score_diff := d.score_diff
  quarter := d.quarter
  def_alignment := d.def_alignment
  rushers := d.rushers
  completion := completionVal sh d
  yards_gained := roundTo 1 (yardsRaw sh d)
  sack := sackVal sh d
  interception := interceptionVal sh d

/-- Default n_plays of create_realistic_nfl_data, line 39. -/
def n_plays_default : ℕ := 2500

/-- create_realistic_nfl_data: n_plays rows, row i built from the i-th
per-play draws and the shared scalar draws. -/
def create_realistic_nfl_data (sh : SharedDraws) (draws : ℕ → RawDraws)
    (n_plays : ℕ) : List Play :=
  (List.range n_plays).map (fun i => mkPlay sh i (draws i))

/-! ## Aggregation and report operations -/

/-- pandas Series.mean as rational arithmetic (a pandas mean of an empty group
is NaN; here the ℚ division by 0 yields 0, an artifact only the all-categories
rows of categorical groupbys can reach). -/
def mean (xs : List ℚ) : ℚ := xs.sum / xs.length

/-- The rows of the table whose pressure_applied equals p. -/
def pressureGroup (t : List Play) (p : ℕ) : List Play :=
  t.filter (fun r => r.pressure_applied == p)

/-- One row of the pressure_impact_summary table, lines 142-148: the group
means of completion, yards_gained, sack and interception, rounded to 3
decimals, and the count of play_id. -/
structure PressureStats where
  completion_mean : ℚ
  yards_mean : ℚ
  sack_mean : ℚ
  interception_mean : ℚ
  count : ℕ
deriving DecidableEq, Repr

/-- The statistics of the pressure_applied = p group. -/
def groupStats (t : List Play) (p : ℕ) : PressureStats where
  completion_mean := roundTo 3 (mean ((pressureGroup t p).map (fun r => (r.completion : ℚ))))
  yards_mean := roundTo 3 (mean ((pressureGroup t p).map (fun r => r.yards_gained)))
  sack_mean := roundTo 3 (mean ((pressureGroup t p).map (fun r => (r.sack : ℚ))))
  interception_mean := roundTo 3 (mean ((pressureGroup t p).map (fun r => (r.interception : ℚ))))
  count := (pressureGroup t p).length

/-- groupby keys for pressure_applied: the observed values in ascending
order; the column only ever holds 0 or 1, so the observed keys are the
members of [0, 1] that occur. -/
def pressureKeys (t : List Play) : List ℕ :=
  ([0, 1] : List ℕ).filter (fun p => t.any (fun r => r.pressure_applied == p))

/-- Time-to-throw buckets of lines 175-179. -/
inductive TimeBucket where
  | quick
  | normal
  | extended
  | veryLong
deriving DecidableEq, Repr

/-- Pressure-timing buckets of lines 228-232. -/
inductive TimingBucket where
  | immediate
  | quick
  | delayed
  | late
deriving DecidableEq, Repr

/-- pandas cut with bins [0, 2.0, 2.5, 3.0, 10] and right-closed intervals:
(0, 2], (2, 2.5], (2.5, 3], (3, 10]; values outside every bin get NaN. -/
def timeBucket (t : ℚ) : Option TimeBucket :=
  if 0 < t ∧ t ≤ 2 then some .quick
  else if 2 < t ∧ t ≤ 5 / 2 then some .normal
  else if 5 / 2 < t ∧ t ≤ 3 then some .extended
  else if 3 < t ∧ t ≤ 10 then some .veryLong
  else none

/-- pandas cut with bins [0, 1.5, 2.5, 3.5, 10]: (0, 1.5], (1.5, 2.5],
(2.5, 3.5], (3.5, 10]; values outside every bin get NaN. -/
def pressureTiming (t : ℚ) : Option TimingBucket :=
  if 0 < t ∧ t ≤ 3 / 2 then some .immediate
  else if 3 / 2 < t ∧ t ≤ 5 / 2 then some .quick
  else if 5 / 2 < t ∧ t ≤ 7 / 2 then some .delayed
  else if 7 / 2 < t ∧ t ≤ 10 then some .late
  else none

/-- The categorical labels of the time buckets in category order. -/
def allTimeBuckets : List TimeBucket := [.quick, .normal, .extended, .veryLong]

/-- The categorical labels of the timing buckets in category order. -/
def allTimingBuckets : List TimingBucket := [.immediate, .quick, .delayed, .late]

/-- self.data as the analysis methods see it: the generated columns plus the
time_bucket column that time_to_throw_analysis assigns on line 175 (absent
until that method first runs). -/
structure AnalysisData where
  core : List Play
  time_bucket_col : Option (List (Option TimeBucket))
deriving DecidableEq, Repr

/-- self.data right after the constructor: no time_bucket column yet. -/
def initData (t : List Play) : AnalysisData where
  core := t
  time_bucket_col := none

/-- The time_bucket column computed from the stored time_to_throw values. -/
def bucketColumn (t : List Play) : List (Option TimeBucket) :=
  t.map (fun r => timeBucket r.time_to_throw)

/-- pressure_impact_summary, lines 139-169: one row per observed
pressure_applied key, ascending; returns the stats table (the printing and
the t-test are presentation only). -/
def pressure_impact_summary (s : AnalysisData) : List (ℕ × PressureStats) :=
  (pressureKeys s.core).map (fun p => (p, groupStats s.core p))

/-- One row of the time_to_throw_analysis table: mean completion, mean
yards_gained and play count of a (time_bucket, pressure_applied) cell,
rounded to 3 decimals. -/
structure TimeStats where
  completion_mean : ℚ
  yards_mean : ℚ
  count : ℕ
deriving DecidableEq, Repr

/-- The rows of the table in time bucket b with pressure_applied p (bucketed
on the stored, rounded time_to_throw, as pandas cut is applied to the stored
column). -/
def timeGroup (t : List Play) (b : TimeBucket) (p : ℕ) : List Play :=
  t.filter (fun r => timeBucket r.time_to_throw == some b && r.pressure_applied == p)

/-- The statistics of one (time_bucket, pressure_applied) cell. -/
def timeStatsAt (t : List Play) (b : TimeBucket) (p : ℕ) : TimeStats where
  completion_mean := roundTo 3 (mean ((timeGroup t b p).map (fun r => (r.completion : ℚ))))
  yards_mean := roundTo 3 (mean ((timeGroup t b p).map (fun r => r.yards_gained)))
  count := (timeGroup t b p).length

/-- time_to_throw_analysis, lines 171-193: assigns the time_bucket column to
self.data (line 175) and returns the stats grouped by (time_bucket,
pressure_applied).  The bucket index is categorical, so every label appears;
the pressure index lists the observed keys; rows whose time_to_throw falls in
no bin carry NaN and are dropped from every group. -/
def time_to_throw_analysis (s : AnalysisData) :
    AnalysisData × List ((TimeBucket × ℕ) × TimeStats) :=
  ({ core := s.core, time_bucket_col := some (bucketColumn s.core) },
   allTimeBuckets.flatMap (fun b =>
     (pressureKeys s.core).map (fun p => ((b, p), timeStatsAt s.core b p))))

/-- One row of the defensive_alignment_effectiveness table, lines 198-205:
sack mean, incompletion rate (1 - completion mean), interception mean, each
rounded to 3 decimals, and the pressured play count. -/
structure DefStats where
  sack_mean : ℚ
  incompletion_rate : ℚ
  interception_mean : ℚ
  count : ℕ
deriving DecidableEq, Repr

/-- Insertion of x into a list already arranged by le. -/
def insertBy {α : Type} (le : α → α → Bool) (x : α) : List α → List α
  | [] => [x]
  | y :: ys => if le x y then x :: y :: ys else y :: insertBy le x ys

/-- Insertion sort by le (sort_values is modelled as a deterministic sort;
the source uses the pandas default sort, whose order among ties is an
implementation detail no claim depends on). -/
def sortBy {α : Type} (le : α → α → Bool) : List α → List α
  | [] => []
  | x :: xs => insertBy le x (sortBy le xs)

/-- defensive_alignment_effectiveness, lines 195-214: restrict to pressured
plays, group by the observed alignment keys, compute the stats and sort by
sack mean descending. -/
def defensive_alignment_effectiveness (s : AnalysisData) : List (Alignment × DefStats) :=
  let pressured := s.core.filter (fun r => r.pressure_applied == 1)
  let observed := [Alignment.base34, .base43, .blitz, .dime, .nickel].filter
    (fun a => pressured.any (fun r => r.def_alignment == a))
  sortBy (fun x y => y.2.sack_mean ≤ x.2.sack_mean)
    (observed.map (fun a =>
      let g := pressured.filter (fun r => r.def_alignment == a)
      (a, { sack_mean := roundTo 3 (mean (g.map (fun r => (r.sack : ℚ))))
            incompletion_rate := roundTo 3 (1 - mean (g.map (fun r => (r.completion : ℚ))))
            interception_mean := roundTo 3 (mean (g.map (fun r => (r.interception : ℚ))))
            count := g.length })))

/-- successful_pressure of lines 221-225: incompletion, sack or
interception. -/
def successfulPressure (r : Play) : ℕ :=
  if r.completion = 0 ∨ r.sack = 1 ∨ r.interception = 1 then 1 else 0

/-- One row of the optimal_pressure_timing table, lines 234-241. -/
structure TimingStats where
  success_rate : ℚ
  sack_mean : ℚ
  yards_mean : ℚ
  count : ℕ
deriving DecidableEq, Repr

/-- The pressured rows falling in timing bucket b. -/
def timingGroup (t : List Play) (b : TimingBucket) : List Play :=
  (t.filter (fun r => r.pressure_applied == 1)).filter
    (fun r => pressureTiming r.time_to_pressure == some b)

/-- optimal_pressure_timing, lines 216-249: works on a copy of the pressured
rows, buckets time_to_pressure, and aggregates per categorical label (every
label appears; rows bucketed to NaN are dropped from every group). -/
def optimal_pressure_timing (s : AnalysisData) : List (TimingBucket × TimingStats) :=
  allTimingBuckets.map (fun b =>
    let g := timingGroup s.core b
    (b, { success_rate := roundTo 3 (mean (g.map (fun r => (successfulPressure r : ℚ))))
          sack_mean := roundTo 3 (mean (g.map (fun r => (r.sack : ℚ))))
          yards_mean := roundTo 3 (mean (g.map (fun r => r.yards_gained)))
          count := g.length }))

/-- The data plotted by create_visualizations, lines 251-333: panel 1 and 2
means by pressure, panel 4 means by (time_bucket, pressure) read from the
stored time_bucket column, panel 5 per-alignment success rates sorted
ascending, panel 6 per-timing success rates. -/
structure VisResult where
  pressure_comp : List (ℕ × ℚ)
  pressure_yards : List (ℕ × ℚ)
  time_comp : List ((TimeBucket × ℕ) × ℚ)
  def_success : List (Alignment × ℚ)
  timing_success : List (TimingBucket × ℚ)
deriving DecidableEq, Repr

/-- create_visualizations, lines 251-333.  Line 294 reads
self.data[time_bucket], a column that exists only after
time_to_throw_analysis has run; on a table without it the lookup raises a
KeyError, modelled as the error case. -/
def create_visualizations (s : AnalysisData) : Except String VisResult :=
  match s.time_bucket_col with
  | none => .error ("KeyError: time_bucket")
  | some col =>
    let pressured := s.core.filter (fun r => r.pressure_applied == 1)
    .ok
      { pressure_comp := (pressureKeys s.core).map (fun p =>
          (p, mean ((pressureGroup s.core p).map (fun r => (r.completion : ℚ)))))
        pressure_yards := (pressureKeys s.core).map (fun p =>
          (p, mean ((pressureGroup s.core p).map (fun r => r.yards_gained))))
        time_comp := allTimeBuckets.flatMap (fun b =>
          (pressureKeys s.core).map (fun p =>
            ((b, p), mean (((s.core.zip col).filter
              (fun rc => rc.2 == some b && rc.1.pressure_applied == p)).map
              (fun rc => (rc.1.completion : ℚ))))))
        def_success := sortBy (fun x y => x.2 ≤ y.2)
          (([Alignment.base34, .base43, .blitz, .dime, .nickel].filter
            (fun a => pressured.any (fun r => r.def_alignment == a))).map (fun a =>
            (a, mean ((pressured.filter (fun r => r.def_alignment == a)).map
              (fun r => if r.sack = 1 ∨ r.completion = 0 then (1 : ℚ) else 0)))))
        timing_success := allTimingBuckets.map (fun b =>
          (b, mean ((timingGroup s.core b).map
            (fun r => if r.sack = 1 ∨ r.completion = 0 then (1 : ℚ) else 0)))) }

/-- The five analysis methods main invokes, in declaration order. -/
inductive Op where
  | summary
  | ttt
  | defense
  | timing
  | vis
deriving DecidableEq, Repr

/-- The effect of each method on the stored self.data: only
time_to_throw_analysis writes to it (it assigns the time_bucket column);
the other four leave it untouched (optimal_pressure_timing and
create_visualizations work on copies). -/
def applyOp : Op → AnalysisData → AnalysisData
  | .ttt, s => (time_to_throw_analysis s).1
  | _, s => s

/-- Running a sequence of methods for their state effects. -/
def runOps (l : List Op) (s : AnalysisData) : AnalysisData :=
  l.foldl (fun s o => applyOp o s) s

/-- The constructor, lines 34-37: numpy.random.seed(42) replaces whatever
global RNG state was current, then create_realistic_nfl_data consumes draws
derived from the freshly seeded state.  derive maps a seed to the draw
streams it determines; the prior global state is discarded by the reseed. -/
def constructor_data (derive : ℕ → SharedDraws × (ℕ → RawDraws)) (_prior : ℕ) :
    List Play :=
  let seeded := derive 42
  create_realistic_nfl_data seeded.1 seeded.2 n_plays_default

/-! ## Concrete draw instances used by the witnesses -/

/-- A pressured play with quick pressure and a late release: the sack
condition holds. -/
def dEx : RawDraws where
  time_to_throw := 3
  pressure_applied := 1
  time_to_pressure := 1
  down := 1
  distance := 5
  field_position := 50
  score_diff := 0
  quarter := 1
  def_alignment := .nickel
  rushers := 4
  comp_draw_pressure := 1
  comp_draw_no_pressure := 1
  yards_base := 6
  yards_bonus := 2
  yards_penalty := 1
  sack_yards := 5

/-- The same play without pressure. -/
def dEx0 : RawDraws := { dEx with pressure_applied := 0 }

/-- A play whose two sampled times both exceed 10, so neither bucketing
assigns it a label. -/
def dEx11 : RawDraws := { dEx with time_to_throw := 11, time_to_pressure := 11 }

/-- Shared scalar draws with the sack coin landing 1. -/
def shEx : SharedDraws where
  sack_draw := 1
  int_draw_pressured := 0
  int_draw_other := 0

/-- A one-row table generated from the sacked play. -/
def tEx : List Play := create_realistic_nfl_data shEx (fun _ => dEx) 1

/-- A two-row table with one pressured and one unpressured play. -/
def tEx2 : List Play :=
  create_realistic_nfl_data shEx (fun i => if i = 0 then dEx else dEx0) 2

/-- A one-row table whose play falls outside every bucket. -/
def tEx11 : List Play := create_realistic_nfl_data shEx (fun _ => dEx11) 1

/-! ## Helper lemmas -/

/-- Rounding zero to one decimal gives zero. -/
lemma roundTo_one_zero : roundTo 1 (0 : ℚ) = 0 := by
  simp [roundTo]

/-- A rational at most -3 stays negative after rounding to one decimal. -/
lemma roundTo_one_neg {x : ℚ} (h : x ≤ -3) : roundTo 1 x < 0 := by
  have h10 : x * 10 ^ 1 + 1 / 2 ≤ (-59 : ℚ) / 2 := by nlinarith
  have hfl2 : ⌊(-59 : ℚ) / 2⌋ = -30 := Int.floor_eq_iff.mpr (by norm_num)
  have hfl : round (x * 10 ^ 1) ≤ -30 := by
    rw [round_eq]
    exact le_of_le_of_eq (Int.floor_mono h10) hfl2
  rw [roundTo]
  have : ((round (x * 10 ^ 1) : ℤ) : ℚ) ≤ -30 := by exact_mod_cast hfl
  have hp : (0 : ℚ) < 10 ^ 1 := by norm_num
  apply div_neg_of_neg_of_pos _ hp
  linarith

/-- The validity of the sack condition for the witness draws. -/
lemma sackCond_dEx : sackCond dEx := by
  refine ⟨rfl, ?_, ?_⟩ <;> norm_num [dEx]

/-! ## Claims -/

/-- C1.  The Bernoulli parameter of the completion draw is a function of the
pressure flag and the release time alone: with pressure it is
0.65 - 0.15 - 0.10 * [time_to_throw < 2.0] clipped to [0.3, 0.9], in fact
0.40 on quick throws and 0.50 otherwise; without pressure it is
0.65 + 0.05 * [time_to_throw > 2.5] clipped to [0.3, 0.9], in fact 0.70 on
extended plays and 0.65 otherwise; either way it lies in [0.3, 0.9].  The
draw itself is an abstract input of the embedding (comp_draw_pressure and
comp_draw_no_pressure), selected by completion0. -/
theorem completion_prob_rule (t : ℚ) :
    (completionProb 1 t
      = clip (65 / 100 - 15 / 100 - (if t < 2 then (1 : ℚ) else 0) * (10 / 100))
          (3 / 10) (9 / 10))
    ∧ (completionProb 0 t
      = clip (65 / 100 + (if t > 5 / 2 then (1 : ℚ) else 0) * (5 / 100))
          (3 / 10) (9 / 10))
    ∧ (completionProb 1 t = if t < 2 then 2 / 5 else 1 / 2)
    ∧ (completionProb 0 t = if t > 5 / 2 then 7 / 10 else 13 / 20)
    ∧ (3 / 10 ≤ completionProb 1 t ∧ completionProb 1 t ≤ 9 / 10)
    ∧ (3 / 10 ≤ completionProb 0 t ∧ completionProb 0 t ≤ 9 / 10) := by
  have h1 : completionProb 1 t = if t < 2 then 2 / 5 else 1 / 2 := by
    unfold completionProb clip base_completion
    rw [if_pos rfl]
    by_cases ht : t < 2
    · rw [if_pos ht, if_pos ht]; norm_num [min_def, max_def]
    · rw [if_neg ht, if_neg ht]; norm_num [min_def, max_def]
  have h0 : completionProb 0 t = if t > 5 / 2 then 7 / 10 else 13 / 20 := by
    unfold completionProb clip base_completion
    rw [if_neg (by decide : ¬ (0 : ℕ) = 1)]
    by_cases ht : t > 5 / 2
    · rw [if_pos ht, if_pos ht]; norm_num [min_def, max_def]
    · rw [if_neg ht, if_neg ht]; norm_num [min_def, max_def]
  refine ⟨?_, ?_, h1, h0, ?_, ?_⟩
  · unfold completionProb clip base_completion
    rw [if_pos rfl]
  · unfold completionProb clip base_completion
    rw [if_neg (by decide : ¬ (0 : ℕ) = 1)]
  · rw [h1]; split_ifs <;> norm_num
  · rw [h0]; split_ifs <;> norm_num

/-- C2.  On every generated play, sack is 0 unless pressure was applied, the
pressure arrived strictly before 2.0 seconds, and the ball was released
strictly after the pressure arrived; when all three hold, sack equals the
Bernoulli(0.4) scalar draw of line 116 (a 0/1 value).  In particular a play
with no pressure, or with pressure at 2.0 seconds or later, or released
before the pressure arrived, is never a sack. -/
theorem sack_rule (sh : SharedDraws) (draws : ℕ → RawDraws) (n : ℕ)
    (hsh : ValidShared sh) :
    ∀ r ∈ create_realistic_nfl_data sh draws n, ∃ i, i < n ∧
      r = mkPlay sh i (draws i) ∧
      (((draws i).pressure_applied ≠ 1 ∨ ¬ (draws i).time_to_pressure < 2 ∨
          ¬ (draws i).time_to_throw > (draws i).time_to_pressure) → r.sack = 0) ∧
      ((draws i).pressure_applied = 1 ∧ (draws i).time_to_pressure < 2 ∧
          (draws i).time_to_throw > (draws i).time_to_pressure →
        r.sack = sh.sack_draw ∧ r.sack ≤ 1) := by
  intro r hr
  rw [create_realistic_nfl_data, List.mem_map] at hr
  obtain ⟨i, hi, rfl⟩ := hr
  refine ⟨i, List.mem_range.mp hi, rfl, ?_, ?_⟩
  · intro h
    have hnc : ¬ sackCond (draws i) := by
      intro hc
      unfold sackCond at hc
      rcases h with h | h | h
      · exact h hc.1
      · exact h hc.2.1
      · exact h hc.2.2
    show sackVal sh (draws i) = 0
    rw [sackVal, if_neg hnc]
  · intro h
    have hc : sackCond (draws i) := ⟨h.1, h.2.1, h.2.2⟩
    constructor
    · show sackVal sh (draws i) = sh.sack_draw
      rw [sackVal, if_pos hc]
    · show sackVal sh (draws i) ≤ 1
      rw [sackVal, if_pos hc]
      exact hsh.1

/-- Witness for sack_rule at a concrete sacked play. -/
theorem sack_rule_witness :
    ∃ i, i < 1 ∧
      mkPlay shEx 0 dEx = mkPlay shEx i ((fun _ => dEx) i) ∧
      (((fun _ => dEx) i : RawDraws).pressure_applied ≠ 1 ∨
          ¬ ((fun _ => dEx) i : RawDraws).time_to_pressure < 2 ∨
          ¬ ((fun _ => dEx) i : RawDraws).time_to_throw >
            ((fun _ => dEx) i : RawDraws).time_to_pressure →
        (mkPlay shEx 0 dEx).sack = 0) ∧
      (((fun _ => dEx) i : RawDraws).pressure_applied = 1 ∧
          ((fun _ => dEx) i : RawDraws).time_to_pressure < 2 ∧
          ((fun _ => dEx) i : RawDraws).time_to_throw >
            ((fun _ => dEx) i : RawDraws).time_to_pressure →
        (mkPlay shEx 0 dEx).sack = shEx.sack_draw ∧ (mkPlay shEx 0 dEx).sack ≤ 1) :=
  sack_rule shEx (fun _ => dEx) 1
    (by unfold ValidShared; exact ⟨Nat.le_refl 1, Nat.zero_le 1, Nat.zero_le 1⟩)
    (mkPlay shEx 0 dEx)
    (List.mem_map.mpr ⟨0, List.mem_range.mpr Nat.zero_lt_one, rfl⟩)

/-- C3.  On every generated play: an incomplete non-sack play gains 0 yards;
a completed play gains the nonnegative gamma base draw, plus the nonnegative
extended-play bonus draw exactly when time_to_throw > 2.5, minus the
uniform-[0, 3) penalty draw exactly when pressure was applied (rounded to one
decimal); a sack loses a uniform draw from (-8, -3] (rounded to one
decimal). -/
theorem yards_rule (sh : SharedDraws) (draws : ℕ → RawDraws) (n : ℕ)
    (hv : ∀ i, ValidDraws (draws i)) :
    ∀ r ∈ create_realistic_nfl_data sh draws n, ∃ i, i < n ∧
      r = mkPlay sh i (draws i) ∧
      (r.completion = 0 ∧ r.sack = 0 → r.yards_gained = 0) ∧
      (r.completion = 1 →
        0 ≤ (draws i).yards_base ∧ 0 ≤ (draws i).yards_bonus ∧
        (0 ≤ (draws i).yards_penalty ∧ (draws i).yards_penalty < 3) ∧
        r.yards_gained = roundTo 1 ((draws i).yards_base
          + (if (draws i).time_to_throw > 5 / 2 then (1 : ℚ) else 0) * (draws i).yards_bonus
          - (if (draws i).pressure_applied = 1 then (1 : ℚ) else 0) * (draws i).yards_penalty)) ∧
      (r.sack = 1 → ∃ u, 3 ≤ u ∧ u < 8 ∧ r.yards_gained = roundTo 1 (-u)) := by
  intro r hr
  rw [create_realistic_nfl_data, List.mem_map] at hr
  obtain ⟨i, hi, rfl⟩ := hr
  have hvi := hv i
  unfold ValidDraws at hvi
  refine ⟨i, List.mem_range.mp hi, rfl, ?_, ?_, ?_⟩
  · rintro ⟨hc, hs⟩
    have hs' : sackVal sh (draws i) = 0 := hs
    have hc' : completionVal sh (draws i) = 0 := hc
    rw [completionVal, hs', if_neg (by decide : ¬ (0 : ℕ) = 1)] at hc'
    show roundTo 1 (yardsRaw sh (draws i)) = 0
    rw [yardsRaw, hs', if_neg (by decide : ¬ (0 : ℕ) = 1)]
    rw [yards0, if_neg (by rw [hc']; exact Nat.zero_ne_one)]
    exact roundTo_one_zero
  · intro hc
    have hc' : completionVal sh (draws i) = 1 := hc
    have hs' : sackVal sh (draws i) ≠ 1 := by
      intro hs
      rw [completionVal, if_pos hs] at hc'
      exact Nat.zero_ne_one hc'
    rw [completionVal, if_neg hs'] at hc'
    refine ⟨hvi.2.2.2.2.2.2.2.2.2.2.1, hvi.2.2.2.2.2.2.2.2.2.2.2.1,
      hvi.2.2.2.2.2.2.2.2.2.2.2.2.1, ?_⟩
    show roundTo 1 (yardsRaw sh (draws i)) = _
    rw [yardsRaw, if_neg hs', yards0, if_pos hc']
  · intro hs
    have hs' : sackVal sh (draws i) = 1 := hs
    refine ⟨(draws i).sack_yards, hvi.2.2.2.2.2.2.2.2.2.2.2.2.2.1,
      hvi.2.2.2.2.2.2.2.2.2.2.2.2.2.2, ?_⟩
    show roundTo 1 (yardsRaw sh (draws i)) = _
    rw [yardsRaw, if_pos hs']

/-- Witness for yards_rule at a concrete sacked play. -/
theorem yards_rule_witness :
    ∃ u, 3 ≤ u ∧ u < 8 ∧ (mkPlay shEx 0 dEx).yards_gained = roundTo 1 (-u) := by
  have h := yards_rule shEx (fun _ => dEx) 1
    (fun _ => by unfold ValidDraws dEx; norm_num)
    (mkPlay shEx 0 dEx)
    (List.mem_map.mpr ⟨0, List.mem_range.mpr Nat.zero_lt_one, rfl⟩)
  obtain ⟨i, _, heq, _, _, hsack⟩ := h
  exact hsack (by show sackVal shEx dEx = 1; rw [sackVal, if_pos sackCond_dEx]; rfl)

/-- C8.  create_realistic_nfl_data returns one flat list of exactly n_plays
records; the play_id column reads 1, 2, ..., n_plays in order (so each value
occurs exactly once); every record is a full Play built from the i-th draws;
the default n_plays is 2500. -/
theorem create_shape (sh : SharedDraws) (draws : ℕ → RawDraws) (n : ℕ) :
    (create_realistic_nfl_data sh draws n).length = n
    ∧ (create_realistic_nfl_data sh draws n).map Play.play_id = List.range' 1 n
    ∧ (∀ r ∈ create_realistic_nfl_data sh draws n, ∃ i, i < n ∧ r = mkPlay sh i (draws i))
    ∧ (create_realistic_nfl_data sh draws n_plays_default).length = 2500 := by
  refine ⟨?_, ?_, ?_, ?_⟩
  · simp [create_realistic_nfl_data]
  · rw [create_realistic_nfl_data, List.map_map, List.range'_eq_map_range]
    exact List.map_congr_left (fun i _ => by simp [mkPlay, Function.comp, Nat.add_comm])
  · intro r hr
    rw [create_realistic_nfl_data, List.mem_map] at hr
    obtain ⟨i, hi, rfl⟩ := hr
    exact ⟨i, List.mem_range.mp hi, rfl⟩
  · simp [create_realistic_nfl_data, n_plays_default]

/-- Witness for create_shape at a concrete input. -/
theorem create_shape_witness :
    (create_realistic_nfl_data shEx (fun _ => dEx) 3).length = 3
    ∧ ∃ i, i < 3 ∧ mkPlay shEx 0 dEx = mkPlay shEx i ((fun _ => dEx) i : RawDraws) := by
  have h := create_shape shEx (fun _ => dEx) 3
  exact ⟨h.1, h.2.2.1 (mkPlay shEx 0 dEx)
    (List.mem_map.mpr ⟨0, List.mem_range.mpr (by norm_num), rfl⟩)⟩

/-- C9.  The constructor reseeds the global RNG with the fixed value 42
before generating, so the table it stores does not depend on the prior RNG
state: constructing the analysis twice (with any two prior states) yields
identical play tables. -/
theorem seed_determinism (derive : ℕ → SharedDraws × (ℕ → RawDraws))
    (prior1 prior2 : ℕ) :
    constructor_data derive prior1 = constructor_data derive prior2 := rfl

/-- Each method leaves the generated columns of self.data untouched. -/
lemma applyOp_core (o : Op) (s : AnalysisData) : (applyOp o s).core = s.core := by
  cases o <;> rfl

/-- Running any method sequence leaves the generated columns untouched. -/
lemma runOps_core (l : List Op) : ∀ s, (runOps l s).core = s.core := by
  induction l with
  | nil => intro s; rfl
  | cons o l ih =>
    intro s
    show (runOps l (applyOp o s)).core = s.core
    rw [ih, applyOp_core]

/-- The time_bucket column after any method sequence: present with the
buckets of the stored (never-changing) core exactly when
time_to_throw_analysis ran, otherwise whatever it was before. -/
lemma runOps_bucket (l : List Op) : ∀ s, (runOps l s).time_bucket_col =
    if Op.ttt ∈ l then some (bucketColumn s.core) else s.time_bucket_col := by
  induction l with
  | nil => intro s; simp [runOps]
  | cons o l ih =>
    intro s
    show (runOps l (applyOp o s)).time_bucket_col = _
    rw [ih, applyOp_core]
    by_cases hl : Op.ttt ∈ l
    · rw [if_pos hl, if_pos (List.mem_cons_of_mem o hl)]
    · rw [if_neg hl]
      cases o with
      | ttt => simp [applyOp, time_to_throw_analysis]
      | summary => simp [applyOp, hl]
      | defense => simp [applyOp, hl]
      | timing => simp [applyOp, hl]
      | vis => simp [applyOp, hl]

/-- C4.  On the generated table, and still after any sequence of analysis
methods has been applied to the stored data, every record with sack = 1 has
completion = 0 and strictly negative yards_gained. -/
theorem sack_outcome_invariant (sh : SharedDraws) (draws : ℕ → RawDraws) (n : ℕ)
    (hv : ∀ i, ValidDraws (draws i)) (ops : List Op) :
    ∀ r ∈ (runOps ops (initData (create_realistic_nfl_data sh draws n))).core,
      r.sack = 1 → r.completion = 0 ∧ r.yards_gained < 0 := by
  intro r hr hs
  rw [runOps_core] at hr
  rw [initData] at hr
  rw [create_realistic_nfl_data, List.mem_map] at hr
  obtain ⟨i, hi, rfl⟩ := hr
  have hs' : sackVal sh (draws i) = 1 := hs
  constructor
  · show completionVal sh (draws i) = 0
    rw [completionVal, if_pos hs']
  · show roundTo 1 (yardsRaw sh (draws i)) < 0
    rw [yardsRaw, if_pos hs']
    have hvi := hv i
    unfold ValidDraws at hvi
    have h3 : 3 ≤ (draws i).sack_yards := hvi.2.2.2.2.2.2.2.2.2.2.2.2.2.1
    exact roundTo_one_neg (by linarith)

/-- Witness for sack_outcome_invariant at a concrete sacked play after a
method run. -/
theorem sack_outcome_invariant_witness :
    (mkPlay shEx 0 dEx).completion = 0 ∧ (mkPlay shEx 0 dEx).yards_gained < 0 := by
  have h := sack_outcome_invariant shEx (fun _ => dEx) 1
    (fun _ => by unfold ValidDraws dEx; norm_num) [Op.ttt]
    (mkPlay shEx 0 dEx)
    (by rw [runOps_core, initData]
        exact List.mem_map.mpr ⟨0, List.mem_range.mpr Nat.zero_lt_one, rfl⟩)
  exact h (by show sackVal shEx dEx = 1; rw [sackVal, if_pos sackCond_dEx]; rfl)

/-- C5, counterexample.  time_to_throw_analysis does not leave self.data
unchanged: on the freshly generated concrete table it assigns the
time_bucket column, so the stored data differs (a column exists afterwards
that did not exist before). -/
theorem frame_violation : (time_to_throw_analysis (initData tEx)).1 ≠ initData tEx := by
  intro h
  have h2 := congrArg AnalysisData.time_bucket_col h
  exact Option.some_ne_none (bucketColumn tEx) h2

/-- C5, amended.  Every report method leaves the generated columns (all the
records and values of the play table) unchanged; pressure_impact_summary,
defensive_alignment_effectiveness and optimal_pressure_timing leave
self.data entirely unchanged; time_to_throw_analysis changes it only by
setting the time_bucket column, computed from the stored time_to_throw. -/
theorem frame_amended (s : AnalysisData) :
    (time_to_throw_analysis s).1.core = s.core
    ∧ (time_to_throw_analysis s).1.time_bucket_col = some (bucketColumn s.core)
    ∧ applyOp .summary s = s
    ∧ applyOp .defense s = s
    ∧ applyOp .timing s = s :=
  ⟨rfl, rfl, rfl, rfl, rfl⟩

/-- The pressure summary reads only the generated columns. -/
lemma summary_depends_on_core (s s' : AnalysisData) (h : s.core = s'.core) :
    pressure_impact_summary s = pressure_impact_summary s' := by
  unfold pressure_impact_summary pressureKeys
  rw [h]

/-- The time-to-throw stats read only the generated columns. -/
lemma time_stats_depend_on_core (s s' : AnalysisData) (h : s.core = s'.core) :
    (time_to_throw_analysis s).2 = (time_to_throw_analysis s').2 := by
  unfold time_to_throw_analysis pressureKeys
  rw [h]

/-- The alignment stats read only the generated columns. -/
lemma defense_depends_on_core (s s' : AnalysisData) (h : s.core = s'.core) :
    defensive_alignment_effectiveness s = defensive_alignment_effectiveness s' := by
  unfold defensive_alignment_effectiveness
  rw [h]

/-- The timing stats read only the generated columns. -/
lemma timing_depends_on_core (s s' : AnalysisData) (h : s.core = s'.core) :
    optimal_pressure_timing s = optimal_pressure_timing s' := by
  unfold optimal_pressure_timing timingGroup
  rw [h]

/-- The visualization data reads only the generated columns and the
time_bucket column. -/
lemma vis_depends_on_state (s s' : AnalysisData) (h1 : s.core = s'.core)
    (h2 : s.time_bucket_col = s'.time_bucket_col) :
    create_visualizations s = create_visualizations s' := by
  obtain ⟨c, b⟩ := s
  obtain ⟨c', b'⟩ := s'
  obtain rfl : c = c' := h1
  obtain rfl : b = b' := h2
  rfl

/-- C6, counterexample.  Invoked first on the generated table (before
time_to_throw_analysis has run), create_visualizations does not succeed: the
time_bucket column it reads does not exist yet, a KeyError. -/
theorem order_violation :
    create_visualizations (initData tEx) = .error ("KeyError: time_bucket") := rfl

/-- C6, amended.  After any sequence of the five methods, each of
pressure_impact_summary, time_to_throw_analysis (its returned stats),
defensive_alignment_effectiveness and optimal_pressure_timing returns
exactly what it returns on the fresh table, so those four are
order-independent; create_visualizations succeeds with the value it has in
the order used by main precisely when time_to_throw_analysis ran earlier,
and fails with the time_bucket KeyError otherwise. -/
theorem order_amended (l : List Op) (t : List Play) :
    pressure_impact_summary (runOps l (initData t)) = pressure_impact_summary (initData t)
    ∧ (time_to_throw_analysis (runOps l (initData t))).2
        = (time_to_throw_analysis (initData t)).2
    ∧ defensive_alignment_effectiveness (runOps l (initData t))
        = defensive_alignment_effectiveness (initData t)
    ∧ optimal_pressure_timing (runOps l (initData t))
        = optimal_pressure_timing (initData t)
    ∧ (Op.ttt ∈ l → create_visualizations (runOps l (initData t))
        = create_visualizations
            (runOps [Op.summary, Op.ttt, Op.defense, Op.timing] (initData t)))
    ∧ (Op.ttt ∉ l → create_visualizations (runOps l (initData t))
        = Except.error ("KeyError: time_bucket")) := by
  have hc : (runOps l (initData t)).core = t := runOps_core l (initData t)
  have hb := runOps_bucket l (initData t)
  refine ⟨summary_depends_on_core _ _ hc, time_stats_depend_on_core _ _ hc,
    defense_depends_on_core _ _ hc, timing_depends_on_core _ _ hc, ?_, ?_⟩
  · intro hl
    apply vis_depends_on_state
    · rw [hc, runOps_core]; rfl
    · rw [hb, if_pos hl, runOps_bucket]
      rw [if_pos (by decide : Op.ttt ∈ [Op.summary, Op.ttt, Op.defense, Op.timing])]
  · intro hl
    have hb' : (runOps l (initData t)).time_bucket_col = none := by
      rw [hb, if_neg hl]; rfl
    have hvis := vis_depends_on_state (runOps l (initData t))
      { core := (runOps l (initData t)).core, time_bucket_col := none } rfl hb'
    rw [hvis]; rfl

/-- Witness for order_amended: with time_to_throw_analysis run first, the
visualization succeeds with its value from the order main uses. -/
theorem order_amended_witness :
    create_visualizations (runOps [Op.ttt] (initData tEx))
      = create_visualizations
          (runOps [Op.summary, Op.ttt, Op.defense, Op.timing] (initData tEx)) :=
  (order_amended [Op.ttt] tEx).2.2.2.2.1 (by decide)

/-- Splitting a table on the 0/1 pressure flag loses no row. -/
lemma length_filter_pressure (t : List Play) (hv : ∀ r ∈ t, r.pressure_applied ≤ 1) :
    (t.filter (fun r => r.pressure_applied == 0)).length
      + (t.filter (fun r => r.pressure_applied == 1)).length = t.length := by
  induction t with
  | nil => rfl
  | cons r t ih =>
    have hr := hv r (List.mem_cons_self r t)
    have ih' := ih (fun x hx => hv x (List.mem_cons_of_mem r hx))
    rcases Nat.le_one_iff_eq_zero_or_eq_one.mp hr with h | h <;>
      simp [List.filter_cons, h] <;> omega

/-- C7.  With both pressure values present (and the flag 0/1-valued), the
summary has exactly the two groups 0 and 1 in that order; each group row
carries the means of completion, yards_gained, sack and interception rounded
to 3 decimals together with the play count; the two counts sum to the total
number of plays. -/
theorem pressure_summary_rule (t : List Play)
    (h0 : ∃ r ∈ t, r.pressure_applied = 0) (h1 : ∃ r ∈ t, r.pressure_applied = 1)
    (hv : ∀ r ∈ t, r.pressure_applied ≤ 1) :
    pressure_impact_summary (initData t) = [(0, groupStats t 0), (1, groupStats t 1)]
    ∧ (groupStats t 0).count + (groupStats t 1).count = t.length
    ∧ (∀ p, groupStats t p =
        { completion_mean :=
            roundTo 3 (mean ((pressureGroup t p).map (fun r => (r.completion : ℚ))))
          yards_mean := roundTo 3 (mean ((pressureGroup t p).map (fun r => r.yards_gained)))
          sack_mean := roundTo 3 (mean ((pressureGroup t p).map (fun r => (r.sack : ℚ))))
          interception_mean :=
            roundTo 3 (mean ((pressureGroup t p).map (fun r => (r.interception : ℚ))))
          count := (pressureGroup t p).length }) := by
  obtain ⟨r0, hr0, hp0⟩ := h0
  obtain ⟨r1, hr1, hp1⟩ := h1
  have a0 : (t.any (fun r => r.pressure_applied == 0)) = true :=
    List.any_eq_true.mpr ⟨r0, hr0, by simp [hp0]⟩
  have a1 : (t.any (fun r => r.pressure_applied == 1)) = true :=
    List.any_eq_true.mpr ⟨r1, hr1, by simp [hp1]⟩
  refine ⟨?_, ?_, fun p => rfl⟩
  · show (pressureKeys t).map (fun p => (p, groupStats t p)) = _
    rw [show pressureKeys t = [0, 1] from by
      unfold pressureKeys
      simp [List.filter_cons, a0, a1]]
    rfl
  · exact length_filter_pressure t hv

/-- Witness for pressure_summary_rule on a concrete two-row table. -/
theorem pressure_summary_rule_witness :
    (groupStats tEx2 0).count + (groupStats tEx2 1).count = tEx2.length := by
  have h := pressure_summary_rule tEx2
    ⟨mkPlay shEx 1 dEx0,
      List.mem_map.mpr ⟨1, List.mem_range.mpr (by norm_num), rfl⟩, rfl⟩
    ⟨mkPlay shEx 0 dEx,
      List.mem_map.mpr ⟨0, List.mem_range.mpr (by norm_num), rfl⟩, rfl⟩
    (by
      intro r hr
      obtain ⟨i, hi, rfl⟩ := List.mem_map.mp hr
      have hi2 : i < 2 := List.mem_range.mp hi
      interval_cases i <;> decide)
  exact h.2.1

/-- A time_to_throw above the last bin edge 10 falls in no time bucket. -/
lemma timeBucket_none_of_gt {u : ℚ} (hu : 10 < u) : timeBucket u = none := by
  unfold timeBucket
  split_ifs with h1 h2 h3 h4
  · exact absurd h1.2 (by linarith)
  · exact absurd h2.2 (by linarith)
  · exact absurd h3.2 (by linarith)
  · exact absurd h4.2 (by linarith)
  · rfl

/-- A time_to_pressure above the last bin edge 10 falls in no timing
bucket. -/
lemma pressureTiming_none_of_gt {u : ℚ} (hu : 10 < u) : pressureTiming u = none := by
  unfold pressureTiming
  split_ifs with h1 h2 h3 h4
  · exact absurd h1.2 (by linarith)
  · exact absurd h2.2 (by linarith)
  · exact absurd h3.2 (by linarith)
  · exact absurd h4.2 (by linarith)
  · rfl

/-- Sums of pointwise sums of mapped naturals split. -/
lemma sum_map_add {β : Type} (l : List β) (f g : β → ℕ) :
    (l.map (fun b => f b + g b)).sum = (l.map f).sum + (l.map g).sum := by
  induction l with
  | nil => rfl
  | cons x l ih => simp only [List.map_cons, List.sum_cons, ih]; omega

/-- Each bucketed value is counted by exactly one time-bucket label. -/
lemma time_indicator (o : Option TimeBucket) :
    (allTimeBuckets.map (fun b => if o == some b then 1 else 0)).sum
      = if o.isSome then 1 else 0 := by
  cases o with
  | none => rfl
  | some b => cases b <;> rfl

/-- Each bucketed value is counted by exactly one timing-bucket label. -/
lemma timing_indicator (o : Option TimingBucket) :
    (allTimingBuckets.map (fun b => if o == some b then 1 else 0)).sum
      = if o.isSome then 1 else 0 := by
  cases o with
  | none => rfl
  | some b => cases b <;> rfl

/-- The per-label time-bucket counts sum to the number of bucketed rows. -/
lemma time_counts (t : List Play) :
    (allTimeBuckets.map (fun b =>
        (t.filter (fun r => timeBucket r.time_to_throw == some b)).length)).sum
      = (t.filter (fun r => (timeBucket r.time_to_throw).isSome)).length := by
  induction t with
  | nil => rfl
  | cons r t ih =>
    have hmap : ∀ b ∈ allTimeBuckets,
        ((r :: t).filter (fun x => timeBucket x.time_to_throw == some b)).length
          = (if timeBucket r.time_to_throw == some b then 1 else 0)
            + (t.filter (fun x => timeBucket x.time_to_throw == some b)).length := by
      intro b _
      rw [List.filter_cons]
      by_cases h : (timeBucket r.time_to_throw == some b) = true
      · rw [if_pos h, if_pos h, List.length_cons]; omega
      · rw [if_neg h, if_neg h]; omega
    rw [List.map_congr_left hmap, sum_map_add, time_indicator, ih, List.filter_cons]
    by_cases h : ((timeBucket r.time_to_throw).isSome : Bool) = true
    · rw [if_pos h, if_pos h, List.length_cons]; omega
    · rw [if_neg h, if_neg h]; omega

/-- The per-label timing-bucket counts sum to the number of bucketed rows. -/
lemma timing_counts (t : List Play) :
    (allTimingBuckets.map (fun b =>
        (t.filter (fun r => pressureTiming r.time_to_pressure == some b)).length)).sum
      = (t.filter (fun r => (pressureTiming r.time_to_pressure).isSome)).length := by
  induction t with
  | nil => rfl
  | cons r t ih =>
    have hmap : ∀ b ∈ allTimingBuckets,
        ((r :: t).filter (fun x => pressureTiming x.time_to_pressure == some b)).length
          = (if pressureTiming r.time_to_pressure == some b then 1 else 0)
            + (t.filter (fun x => pressureTiming x.time_to_pressure == some b)).length := by
      intro b _
      rw [List.filter_cons]
      by_cases h : (pressureTiming r.time_to_pressure == some b) = true
      · rw [if_pos h, if_pos h, List.length_cons]; omega
      · rw [if_neg h, if_neg h]; omega
    rw [List.map_congr_left hmap, sum_map_add, timing_indicator, ih, List.filter_cons]
    by_cases h : ((pressureTiming r.time_to_pressure).isSome : Bool) = true
    · rw [if_pos h, if_pos h, List.length_cons]; omega
    · rw [if_neg h, if_neg h]; omega

/-- Rounding the integer-valued rational 11 to two decimals is the
identity. -/
lemma roundTo_two_eleven : roundTo 2 (11 : ℚ) = 11 := by
  rw [roundTo]
  rw [show (11 : ℚ) * 10 ^ 2 = ((1100 : ℤ) : ℚ) by norm_num]
  rw [round_intCast]
  norm_num

/-- C10.  Both bucketings drop out-of-range values: any time above the last bin edge 10
falls in no bucket; the per-label bucket counts sum to the number of rows a
bucket was assigned to (for optimal_pressure_timing, stated on its returned
count column), not to the number of rows considered; on the concrete table
tEx11, whose single play has time_to_throw 11, the bucketed counts sum to
strictly less than the table length, so the play is silently excluded. -/
theorem bucket_na_rule :
    (∀ u : ℚ, 10 < u → timeBucket u = none)
    ∧ (∀ u : ℚ, 10 < u → pressureTiming u = none)
    ∧ (∀ t : List Play,
        (allTimeBuckets.map (fun b =>
            (t.filter (fun r => timeBucket r.time_to_throw == some b)).length)).sum
          = (t.filter (fun r => (timeBucket r.time_to_throw).isSome)).length)
    ∧ (∀ s : AnalysisData,
        ((optimal_pressure_timing s).map (fun row => row.2.count)).sum
          = ((s.core.filter (fun r => r.pressure_applied == 1)).filter
              (fun r => (pressureTiming r.time_to_pressure).isSome)).length)
    ∧ (allTimeBuckets.map (fun b =>
          (tEx11.filter (fun r => timeBucket r.time_to_throw == some b)).length)).sum
        < tEx11.length := by
  have hb : timeBucket (mkPlay shEx 0 dEx11).time_to_throw = none := by
    show timeBucket (roundTo 2 dEx11.time_to_throw) = none
    rw [show dEx11.time_to_throw = (11 : ℚ) from rfl, roundTo_two_eleven]
    exact timeBucket_none_of_gt (by norm_num)
  refine ⟨fun u hu => timeBucket_none_of_gt hu,
    fun u hu => pressureTiming_none_of_gt hu,
    time_counts, ?_, ?_⟩
  · intro s
    show ((allTimingBuckets.map _).map _).sum = _
    rw [List.map_map]
    exact timing_counts (s.core.filter (fun r => r.pressure_applied == 1))
  · have hf : ∀ b ∈ allTimeBuckets,
        (tEx11.filter (fun r => timeBucket r.time_to_throw == some b)).length = 0 := by
      intro b _
      show (List.filter (fun r => timeBucket r.time_to_throw == some b)
        [mkPlay shEx 0 dEx11]).length = 0
      rw [List.filter_cons, hb]
      rw [show ((none : Option TimeBucket) == some b) = false from rfl]
      rfl
    rw [List.map_congr_left hf]
    show (0 + (0 + (0 + (0 + 0)))) < tEx11.length
    rw [show tEx11.length = 1 from rfl]
    norm_num

/-- Witness for bucket_na_rule at the concrete out-of-range time 11. -/
theorem bucket_na_rule_witness :
    timeBucket 11 = none ∧ pressureTiming 11 = none :=
  ⟨bucket_na_rule.1 11 (by norm_num), bucket_na_rule.2.1 11 (by norm_num)⟩

end QBPressure
